import Mathlib

/-!
Verification of the Kattis task type (cms/grading/tasktypes/Kattis.py) and the
Kattis package loader (cmscontrib/loaders/kattis.py).

Shallow embedding conventions:
* Python floats are modelled as rationals; none of the verified properties
  depend on IEEE rounding.
* A Python function that can raise an exception is modelled as returning
  `Except Unit` (the exception payload is irrelevant here).
* The feedback directory is observed by `_extract_outcome` only through the
  existence and parsability of `score_multiplier.txt`; it is modelled as
  `MultiplierFile`: `absent` when `os.path.isfile` is false, `present v` when
  the file exists and Python `float()` on its content gives `v`
  (`present none` when `float()` raises `ValueError`).
-/

namespace Kattis

/-- The "wrong" evaluation message (EVALUATION_MESSAGES, external to src). -/
def wrongMsg : String := "Output is incorrect"

/-- The "partial" evaluation message (EVALUATION_MESSAGES, external to src). -/
def partMsg : String := "Output is partially correct"

/-- The "success" evaluation message (EVALUATION_MESSAGES, external to src). -/
def okMsg : String := "Output is correct"

/-- The fixed text used in `only_execution` mode (Kattis.py line 271). -/
def execCompletedMsg : String := "Execution completed successfully"

/-- State of `score_multiplier.txt` inside the feedback directory, as observed
by `_extract_outcome`: the file may be absent, or present with a content that
Python `float()` parses to `v` (`present (some v)`) or fails to parse
(`present none`). -/
inductive MultiplierFile
  | absent
  | present (parsed : Option ℚ)
deriving DecidableEq

/-- `Kattis._extract_outcome` (Kattis.py lines 217-242), as a function of the
manager's exit code and of the multiplier-file state.  Returns
`(outcome, text)`; `Except.error` models the uncaught `ValueError` raised by
`float()` on an unparsable file (line 233). -/
def extract_outcome (exit_code : ℤ) (feedback : MultiplierFile) :
    Except Unit (Option ℚ × Option (List String)) :=
  if exit_code ≠ 42 ∧ exit_code ≠ 43 then
    Except.ok (none, none)
  else if exit_code = 43 then
    Except.ok (some 0, some [wrongMsg])
  else
    match feedback with
    | MultiplierFile.present (some v) =>
        Except.ok (some v, some [if 0 < v ∧ v < 1 then partMsg else okMsg])
    | MultiplierFile.present none => Except.error ()
    | MultiplierFile.absent => Except.ok (some 1, some [okMsg])

/-- Exit status of one sandboxed run, as classified by the sandbox layer. -/
inductive ExitStatus
  | ok
  | timeout
  | wall_timeout
  | signal
  | nonzero_return
deriving DecidableEq

/-- The execution statistics consumed by `_get_results`: the sandbox's
classification of the run plus the process's exit code (the only stats field
Kattis.py reads is `stats["exit_code"]`). -/
structure ExecStats where
  exit_status : ExitStatus
  exit_code : ℤ
deriving DecidableEq

/-- Modelled from the spec: `evaluation_step_after_run` (cms.grading.steps,
not under src/) converts raw sandbox telemetry into
`(box success, evaluation success, stats)`.  Per spec section 4.2 and the
section 7 taxonomy ("timeout, memory-limit exceeded, crash, unexpected
nonzero exit" are contestant-side faults; section 4.6 calls the 42/43
reclassification "the one place a nonzero exit is not an error"), a sandbox
malfunction yields `(false, false, none)`, a limit violation, crash or
nonzero exit yields evaluation success false, and a normal zero exit yields
evaluation success true. -/
def evaluation_step_after_run (box_ok : Bool) (stats : ExecStats) :
    Bool × Bool × Option ExecStats :=
  if box_ok then (true, decide (stats.exit_status = ExitStatus.ok), some stats)
  else (false, false, none)

/-- Modelled from the spec: `human_evaluation_message` (cms.grading.steps,
not under src/) renders a human description of the user process's limit
violation or crash, determined by the run's exit classification. -/
def human_evaluation_message (stats : ExecStats) : List String :=
  match stats.exit_status with
  | ExitStatus.ok => []
  | ExitStatus.timeout => ["Execution timed out"]
  | ExitStatus.wall_timeout =>
      ["Execution timed out (wall clock limit exceeded)"]
  | ExitStatus.signal => ["Execution killed by a signal"]
  | ExitStatus.nonzero_return =>
      ["Execution failed because the return code was nonzero"]

/-- The result fields `_get_results` writes into the job (lines 294-298):
`job.success`, `job.outcome`, `job.text`, `job.plus`.  The outcome is kept as
a rational; the code stores its decimal rendering. -/
structure JobResult where
  success : Bool
  outcome : Option ℚ
  text : Option (List String)
  plus : Option ExecStats
deriving DecidableEq

/-- Whether `stats_mgr["exit_code"] in [42, 43]` (line 249) holds. -/
def mgr_exit_in_42_43 (stats : Option ExecStats) : Bool :=
  match stats with
  | some s => decide (s.exit_code = 42 ∨ s.exit_code = 43)
  | none => false

/-- `Kattis._get_results` (Kattis.py lines 244-298) as a function of the two
step results `(box success, evaluation success, stats)` produced by
`evaluation_step_after_run` for the user and manager sandboxes.
`Except.error` models an uncaught Python exception: reading
`stats_mgr["exit_code"]` on line 249 with `stats_mgr = None`, calling
`human_evaluation_message(None)`, or the `ValueError` propagating out of
`_extract_outcome` (these `None`-stats cases cannot arise from
`evaluation_step_after_run`). -/
def get_results (feedback : MultiplierFile)
    (user_run mgr_run : Bool × Bool × Option ExecStats)
    (only_execution : Bool) : Except Unit JobResult :=
  if mgr_run.1 = true ∧ mgr_run.2.2 = none then Except.error ()
  else
    let eval_mgr : Bool :=
      if mgr_run.1 = true ∧ mgr_exit_in_42_43 mgr_run.2.2 = true then true
      else mgr_run.2.1
    let success : Bool := user_run.1 && mgr_run.1 && eval_mgr
    if success = false then
      Except.ok ⟨false, none, none, none⟩
    else if only_execution = true then
      Except.ok ⟨success, some 0, some [execCompletedMsg], user_run.2.2⟩
    else if user_run.2.1 = false then
      match user_run.2.2 with
      | none => Except.error ()
      | some su =>
          Except.ok ⟨success, some 0, some (human_evaluation_message su),
            some su⟩
    else
      match mgr_run.2.2 with
      | none => Except.error ()
      | some sm =>
          (extract_outcome sm.exit_code feedback).map
            (fun p => ⟨success, p.1, p.2, user_run.2.2⟩)

/-- One evaluation's result reduction, composed from the sandbox telemetry of
both sides: `evaluation_step_after_run` on each sandbox followed by
`_get_results` (this is the tail of both `_evaluate_interactive`, line 420,
and `_evaluate_noninteractive`, line 527). -/
def run_results (feedback : MultiplierFile)
    (user_box : Bool) (user_stats : ExecStats)
    (mgr_box : Bool) (mgr_stats : ExecStats)
    (only_execution : Bool) : Except Unit JobResult :=
  get_results feedback
    (evaluation_step_after_run user_box user_stats)
    (evaluation_step_after_run mgr_box mgr_stats)
    only_execution

end Kattis

/-- C2: with manager exit code 42 and a multiplier file parsing to v ∈ [0,1],
the extracted outcome is v and the text is the "partial" message exactly when
0 < v < 1 and the "success" message otherwise; with exit code 42 and no
multiplier file, the outcome is 1.0 with the "success" message. -/
theorem c2_multiplier (v : ℚ) (h0 : 0 ≤ v) (h1 : v ≤ 1) :
    Kattis.extract_outcome 42 (Kattis.MultiplierFile.present (some v)) =
      Except.ok (some v,
        some [if 0 < v ∧ v < 1 then Kattis.partMsg else Kattis.okMsg]) ∧
    Kattis.extract_outcome 42 Kattis.MultiplierFile.absent =
      Except.ok (some 1, some [Kattis.okMsg]) := by
  constructor
  · simp [Kattis.extract_outcome]
  · simp [Kattis.extract_outcome]

/-- Witness for C2 at v = 1/2. -/
theorem c2_multiplier_witness :
    (0 : ℚ) ≤ 1/2 ∧ (1 : ℚ)/2 ≤ 1 ∧
    (Kattis.extract_outcome 42 (Kattis.MultiplierFile.present (some (1/2))) =
      Except.ok (some (1/2 : ℚ),
        some [if 0 < (1/2 : ℚ) ∧ (1/2 : ℚ) < 1 then Kattis.partMsg
              else Kattis.okMsg]) ∧
    Kattis.extract_outcome 42 Kattis.MultiplierFile.absent =
      Except.ok (some 1, some [Kattis.okMsg])) :=
  ⟨by norm_num, by norm_num, c2_multiplier (1/2) (by norm_num) (by norm_num)⟩

/-- C3: with manager exit code 43 the extracted outcome is 0.0 with the
"wrong" message, whatever the state of the multiplier file — in particular the
file is never read (even an unparsable file raises no error). -/
theorem c3_reject_ignores_multiplier (feedback : Kattis.MultiplierFile) :
    Kattis.extract_outcome 43 feedback =
      Except.ok (some 0, some [Kattis.wrongMsg]) := by
  cases feedback with
  | absent => rfl
  | present p => cases p <;> rfl

/-- C1 counterexample: manager exit code 0 is outside {42, 43}, yet with both
sandboxes ok and the user side clean the final result has success = true (and
the user stats are kept), refuting "success=false ... regardless of the user
side's outcome; the user stats are discarded". -/
theorem c1_counterexample :
    ((0 : ℤ) ≠ 42 ∧ (0 : ℤ) ≠ 43) ∧
    Kattis.run_results Kattis.MultiplierFile.absent
        true ⟨Kattis.ExitStatus.ok, 0⟩ true ⟨Kattis.ExitStatus.ok, 0⟩ false =
      Except.ok ⟨true, none, none, some ⟨Kattis.ExitStatus.ok, 0⟩⟩ :=
  ⟨by decide, rfl⟩

/-- C1 amended: for every manager exit code outside {0, 42, 43} (exit code 0
makes the manager's evaluation ok, so it must be excluded), the final job
result has success = false, outcome = null and text = null, regardless of the
manager's box flag and of the user side's outcome, and the user stats are
discarded. -/
theorem c1_amended (ms : Kattis.ExecStats)
    (hcons : ms.exit_status = Kattis.ExitStatus.ok → ms.exit_code = 0)
    (h0 : ms.exit_code ≠ 0) (h42 : ms.exit_code ≠ 42) (h43 : ms.exit_code ≠ 43)
    (feedback : Kattis.MultiplierFile) (mgr_box user_box : Bool)
    (us : Kattis.ExecStats) (oe : Bool) :
    Kattis.run_results feedback user_box us mgr_box ms oe =
      Except.ok ⟨false, none, none, none⟩ := by
  have hst : ms.exit_status ≠ Kattis.ExitStatus.ok := fun h => h0 (hcons h)
  cases mgr_box with
  | false =>
      simp [Kattis.run_results, Kattis.get_results,
        Kattis.evaluation_step_after_run]
  | true =>
      simp [Kattis.run_results, Kattis.get_results,
        Kattis.evaluation_step_after_run, Kattis.mgr_exit_in_42_43,
        hst, h42, h43]

/-- C1 witness: instantiated at manager exit code 5 after a nonzero return. -/
theorem c1_amended_witness :
    ((Kattis.ExecStats.mk Kattis.ExitStatus.nonzero_return 5).exit_status =
        Kattis.ExitStatus.ok →
      (Kattis.ExecStats.mk Kattis.ExitStatus.nonzero_return 5).exit_code = 0) ∧
    (Kattis.ExecStats.mk Kattis.ExitStatus.nonzero_return 5).exit_code ≠ 0 ∧
    (Kattis.ExecStats.mk Kattis.ExitStatus.nonzero_return 5).exit_code ≠ 42 ∧
    (Kattis.ExecStats.mk Kattis.ExitStatus.nonzero_return 5).exit_code ≠ 43 ∧
    Kattis.run_results Kattis.MultiplierFile.absent
        true ⟨Kattis.ExitStatus.ok, 0⟩
        true ⟨Kattis.ExitStatus.nonzero_return, 5⟩ false =
      Except.ok ⟨false, none, none, none⟩ :=
  ⟨by decide, by decide, by decide, by decide,
   c1_amended ⟨Kattis.ExitStatus.nonzero_return, 5⟩ (by decide) (by decide)
     (by decide) (by decide) Kattis.MultiplierFile.absent true true
     ⟨Kattis.ExitStatus.ok, 0⟩ false⟩

/-- C4: with both sandboxes ok and the manager's evaluation ok (normal zero
exit or exit code 42/43), if the user process violated its limits or crashed,
the final result has success = true, outcome = 0.0 and the human description
of the violation as text, for every state of the multiplier file — the
manager's verdict is never consulted. -/
theorem c4_user_violation (us : Kattis.ExecStats)
    (hu : us.exit_status ≠ Kattis.ExitStatus.ok)
    (ms : Kattis.ExecStats)
    (hm : ms.exit_status = Kattis.ExitStatus.ok ∨
      ms.exit_code = 42 ∨ ms.exit_code = 43)
    (feedback : Kattis.MultiplierFile) :
    Kattis.run_results feedback true us true ms false =
      Except.ok ⟨true, some 0, some (Kattis.human_evaluation_message us),
        some us⟩ := by
  rcases hm with hm | hm
  · simp [Kattis.run_results, Kattis.get_results,
      Kattis.evaluation_step_after_run, Kattis.mgr_exit_in_42_43, hm, hu]
  · simp [Kattis.run_results, Kattis.get_results,
      Kattis.evaluation_step_after_run, Kattis.mgr_exit_in_42_43, hm, hu]

/-- C4 witness: user timed out, manager exited 42 with a full-score
multiplier file present; the multiplier is not consulted. -/
theorem c4_user_violation_witness :
    (Kattis.ExecStats.mk Kattis.ExitStatus.timeout 0).exit_status ≠
      Kattis.ExitStatus.ok ∧
    ((Kattis.ExecStats.mk Kattis.ExitStatus.nonzero_return 42).exit_status =
        Kattis.ExitStatus.ok ∨
      (Kattis.ExecStats.mk Kattis.ExitStatus.nonzero_return 42).exit_code = 42 ∨
      (Kattis.ExecStats.mk Kattis.ExitStatus.nonzero_return 42).exit_code = 43) ∧
    Kattis.run_results (Kattis.MultiplierFile.present (some 1))
        true ⟨Kattis.ExitStatus.timeout, 0⟩
        true ⟨Kattis.ExitStatus.nonzero_return, 42⟩ false =
      Except.ok ⟨true, some 0,
        some (Kattis.human_evaluation_message ⟨Kattis.ExitStatus.timeout, 0⟩),
        some ⟨Kattis.ExitStatus.timeout, 0⟩⟩ :=
  ⟨by decide, by decide,
   c4_user_violation ⟨Kattis.ExitStatus.timeout, 0⟩ (by decide)
     ⟨Kattis.ExitStatus.nonzero_return, 42⟩ (by decide)
     (Kattis.MultiplierFile.present (some 1))⟩

/-- C6 counterexample: in only_execution mode, a manager exit code of 1 (a
malfunction) gives success = false and outcome = null, refuting "the final
result always has success=true, outcome=0.0 and the fixed text, regardless of
any manager ... exit code". -/
theorem c6_counterexample :
    Kattis.run_results Kattis.MultiplierFile.absent
        true ⟨Kattis.ExitStatus.ok, 0⟩
        true ⟨Kattis.ExitStatus.nonzero_return, 1⟩ true =
      Except.ok ⟨false, none, none, none⟩ :=
  rfl

/-- C6 amended: in only_execution mode, whenever both sandboxes are ok and
the manager's evaluation is ok (normal zero exit or exit code 42/43), the
final result has success = true, outcome = 0.0 and the fixed text "Execution
completed successfully", regardless of the multiplier file, of the manager's
exit code among those, and of the user side's outcome; when a sandbox
malfunctioned or the manager's evaluation is not ok, success is false. -/
theorem c6_amended (us ms : Kattis.ExecStats)
    (hm : ms.exit_status = Kattis.ExitStatus.ok ∨
      ms.exit_code = 42 ∨ ms.exit_code = 43)
    (feedback : Kattis.MultiplierFile) :
    Kattis.run_results feedback true us true ms true =
      Except.ok ⟨true, some 0, some [Kattis.execCompletedMsg], some us⟩ := by
  rcases hm with hm | hm
  · simp [Kattis.run_results, Kattis.get_results,
      Kattis.evaluation_step_after_run, Kattis.mgr_exit_in_42_43, hm]
  · simp [Kattis.run_results, Kattis.get_results,
      Kattis.evaluation_step_after_run, Kattis.mgr_exit_in_42_43, hm]

/-- C6 witness: only_execution with manager exit 43 and a multiplier file
present; the result is the fixed dummy success outcome. -/
theorem c6_amended_witness :
    ((Kattis.ExecStats.mk Kattis.ExitStatus.nonzero_return 43).exit_status =
        Kattis.ExitStatus.ok ∨
      (Kattis.ExecStats.mk Kattis.ExitStatus.nonzero_return 43).exit_code = 42 ∨
      (Kattis.ExecStats.mk Kattis.ExitStatus.nonzero_return 43).exit_code = 43) ∧
    Kattis.run_results (Kattis.MultiplierFile.present (some 0))
        true ⟨Kattis.ExitStatus.timeout, 0⟩
        true ⟨Kattis.ExitStatus.nonzero_return, 43⟩ true =
      Except.ok ⟨true, some 0, some [Kattis.execCompletedMsg],
        some ⟨Kattis.ExitStatus.timeout, 0⟩⟩ :=
  ⟨by decide,
   c6_amended ⟨Kattis.ExitStatus.timeout, 0⟩
     ⟨Kattis.ExitStatus.nonzero_return, 43⟩ (by decide)
     (Kattis.MultiplierFile.present (some 0))⟩

/-- C8: with manager exit code 42 and a present but unparsable multiplier
file, `_extract_outcome` raises (no outcome is produced, never a silent 1.0),
and the exception propagates out of the whole result reduction: the
evaluation ends in a fatal internal error. -/
theorem c8_unparsable (us : Kattis.ExecStats)
    (hu : us.exit_status = Kattis.ExitStatus.ok)
    (ms : Kattis.ExecStats) (hm : ms.exit_code = 42) :
    Kattis.extract_outcome 42 (Kattis.MultiplierFile.present none) =
      Except.error () ∧
    Kattis.run_results (Kattis.MultiplierFile.present none)
        true us true ms false = Except.error () := by
  constructor
  · rfl
  · simp [Kattis.run_results, Kattis.get_results,
      Kattis.evaluation_step_after_run, Kattis.mgr_exit_in_42_43,
      Kattis.extract_outcome, Except.map, hu, hm]

/-- C8 witness: a clean user run, manager exit 42, unparsable file. -/
theorem c8_unparsable_witness :
    (Kattis.ExecStats.mk Kattis.ExitStatus.ok 0).exit_status =
      Kattis.ExitStatus.ok ∧
    (Kattis.ExecStats.mk Kattis.ExitStatus.nonzero_return 42).exit_code = 42 ∧
    (Kattis.extract_outcome 42 (Kattis.MultiplierFile.present none) =
      Except.error () ∧
    Kattis.run_results (Kattis.MultiplierFile.present none)
        true ⟨Kattis.ExitStatus.ok, 0⟩
        true ⟨Kattis.ExitStatus.nonzero_return, 42⟩ false =
      Except.error ()) :=
  ⟨by decide, by decide,
   c8_unparsable ⟨Kattis.ExitStatus.ok, 0⟩ (by decide)
     ⟨Kattis.ExitStatus.nonzero_return, 42⟩ (by decide)⟩

namespace Kattis

/-- Ephemeral directories of `_evaluate_interactive` that remain on disk
after the evaluation: the FIFO directory (line 313) and the feedback
directory (line 329) are created unconditionally; both are removed by
`rmtree` exactly when `job.success and not config.keep_sandbox and not
job.keep_sandbox` (lines 424-426). -/
def interactive_dirs_remaining (success config_keep job_keep : Bool) :
    List String :=
  let created := ["fifo_dir", "feedback_dir"]
  if success && !config_keep && !job_keep then
    (created.erase "fifo_dir").erase "feedback_dir"
  else created

/-- Ephemeral directories of `_evaluate_noninteractive` that remain on disk
after the evaluation: the output directory (line 441) and the feedback
directory (line 487) are created unconditionally; under the same retention
condition only the feedback directory is removed (lines 531-532) — no
`rmtree(output_dir)` exists. -/
def noninteractive_dirs_remaining (success config_keep job_keep : Bool) :
    List String :=
  let created := ["output_dir", "feedback_dir"]
  if success && !config_keep && !job_keep then
    created.erase "feedback_dir"
  else created

/-- The relevant configuration values (cms config, external constants). -/
structure Config where
  trusted_sandbox_max_time_s : ℚ
  trusted_sandbox_max_memory_kib : ℤ

/-- The job's configured limits: time in seconds, memory in bytes. -/
structure JobLimits where
  time_limit : ℚ
  memory_limit : ℤ

/-- The (time limit, memory limit) pair passed to
`evaluation_step_before_run` for one process. -/
structure LaunchParams where
  time_limit : ℚ
  memory_limit : ℤ
deriving DecidableEq

/-- Manager launch limits in `_evaluate_interactive` (lines 374-380):
`max(job.time_limit + 1.0, config.trusted_sandbox_max_time_s)` and
`config.trusted_sandbox_max_memory_kib * 1024`. -/
def interactive_manager_params (job : JobLimits) (cfg : Config) :
    LaunchParams :=
  ⟨max (job.time_limit + 1) cfg.trusted_sandbox_max_time_s,
   cfg.trusted_sandbox_max_memory_kib * 1024⟩

/-- User launch limits in `_evaluate_interactive` (lines 407-411). -/
def interactive_user_params (job : JobLimits) : LaunchParams :=
  ⟨job.time_limit, job.memory_limit⟩

/-- Manager launch limits in `_evaluate_noninteractive` (lines 511-517). -/
def noninteractive_manager_params (job : JobLimits) (cfg : Config) :
    LaunchParams :=
  ⟨max (job.time_limit + 1) cfg.trusted_sandbox_max_time_s,
   cfg.trusted_sandbox_max_memory_kib * 1024⟩

/-- User launch limits in `_evaluate_noninteractive` (lines 474-478). -/
def noninteractive_user_params (job : JobLimits) : LaunchParams :=
  ⟨job.time_limit, job.memory_limit⟩

/-- The user-side command handling shared by both orchestrators (lines
398-415 and 465-482): `commands` is the language's evaluation command list;
when `len(commands) > 1` the setup branch executes
`trusted_step(sandbox_user[i], commands[:-1])`, where `i` is an unbound name
(and `sandbox_user` a single, non-indexable sandbox), so Python raises
`NameError` before any user process is started — modelled as `Except.error`;
otherwise the last command `commands[-1]` is launched (an empty list would
raise `IndexError`). -/
def user_setup_and_launch (commands : List (List String)) :
    Except Unit (List String) :=
  if commands.length > 1 then Except.error ()
  else
    match commands.getLast? with
    | some c => Except.ok c
    | none => Except.error ()

/-- `KattisLoader.get_task`, attachment phase (cmscontrib/loaders/kattis.py
lines 195-202): if the directory `attachments/` exists its entries are
listed, but each file's content is read from the sibling path
`att/<filename>` via `put_file_from_path(os.path.join(self.path, "att",
filename))`.  `attachments_listing` is the listing of `attachments/` (`none`
when the directory does not exist); `att_files` are the filenames present
under `att/`; reading a missing file raises `FileNotFoundError`, modelled as
`Except.error` carrying the offending filename; on success the attached
filenames are returned in order. -/
def load_attachments (attachments_listing : Option (List String))
    (att_files : List String) : Except String (List String) :=
  match attachments_listing with
  | none => Except.ok []
  | some names =>
      names.foldl
        (fun acc fn =>
          acc.bind fun done =>
            if fn ∈ att_files then Except.ok (done ++ [fn])
            else Except.error fn)
        (Except.ok [])

/-- Once a file read has failed, the remaining iterations keep the error. -/
theorem load_attachments_error_absorbs (att_files names : List String)
    (e : String) :
    names.foldl
        (fun acc fn =>
          acc.bind fun done =>
            if fn ∈ att_files then Except.ok (done ++ [fn])
            else Except.error fn)
        (Except.error e) = Except.error e := by
  induction names with
  | nil => rfl
  | cons n ns ih => rw [List.foldl_cons]; exact ih

end Kattis

/-- C5 counterexample: after a successful non-interactive evaluation with no
retention requested, the output directory still remains on disk, refuting
"none of the ephemeral directories remain". -/
theorem c5_counterexample :
    Kattis.noninteractive_dirs_remaining true false false = ["output_dir"] ∧
    Kattis.noninteractive_dirs_remaining true false false ≠ [] := by
  constructor
  · rfl
  · decide

/-- C5 amended: after a successful evaluation with neither job-level nor
config-level retention requested, the FIFO and feedback directories
(interactive mode) and the feedback directory (non-interactive mode) are
removed, but the non-interactive output directory always remains on disk;
after a failed evaluation, or with retention requested, every created
directory remains. -/
theorem c5_amended :
    ∀ success config_keep job_keep : Bool,
      (Kattis.interactive_dirs_remaining success config_keep job_keep = [] ↔
        (success = true ∧ config_keep = false ∧ job_keep = false)) ∧
      "output_dir" ∈
        Kattis.noninteractive_dirs_remaining success config_keep job_keep ∧
      ("feedback_dir" ∈
          Kattis.noninteractive_dirs_remaining success config_keep job_keep ↔
        ¬(success = true ∧ config_keep = false ∧ job_keep = false)) := by
  decide

/-- C7: in both orchestrators the manager's time limit equals
`max(task time limit + 1.0, trusted sandbox max time)` and its memory limit
is the fixed trusted-sandbox ceiling, independent of the task's configured
limits; the user process runs with exactly the task's configured time and
memory limits. -/
theorem c7_limits (job job2 : Kattis.JobLimits) (cfg : Kattis.Config) :
    (Kattis.interactive_manager_params job cfg).time_limit =
      max (job.time_limit + 1) cfg.trusted_sandbox_max_time_s ∧
    Kattis.noninteractive_manager_params job cfg =
      Kattis.interactive_manager_params job cfg ∧
    (Kattis.interactive_manager_params job cfg).memory_limit =
      cfg.trusted_sandbox_max_memory_kib * 1024 ∧
    (Kattis.interactive_manager_params job cfg).memory_limit =
      (Kattis.interactive_manager_params job2 cfg).memory_limit ∧
    Kattis.interactive_user_params job =
      ⟨job.time_limit, job.memory_limit⟩ ∧
    Kattis.noninteractive_user_params job =
      ⟨job.time_limit, job.memory_limit⟩ :=
  ⟨rfl, rfl, rfl, rfl, rfl, rfl⟩

/-- C9: whenever the language's evaluation command list has more than one
command, the setup branch fails (unbound index into a non-indexable sandbox
handle) before the user process is launched; with a single command the
branch is never taken and that command is launched, so the setup path never
successfully applies a setup command. -/
theorem c9_setup_dead (commands : List (List String)) :
    (commands.length > 1 →
      Kattis.user_setup_and_launch commands = Except.error ()) ∧
    (∀ c, commands = [c] →
      Kattis.user_setup_and_launch commands = Except.ok c) := by
  constructor
  · intro h
    simp [Kattis.user_setup_and_launch, h]
  · rintro c rfl
    rfl

/-- C9 witness: a two-command list fails; a one-command list launches it. -/
theorem c9_setup_dead_witness :
    ([["gcc"], ["run"]] : List (List String)).length > 1 ∧
    Kattis.user_setup_and_launch [["gcc"], ["run"]] = Except.error () ∧
    Kattis.user_setup_and_launch [["run"]] = Except.ok ["run"] :=
  ⟨by decide,
   (c9_setup_dead [["gcc"], ["run"]]).1 (by decide),
   (c9_setup_dead [["run"]]).2 ["run"] rfl⟩

/-- C10: for a package whose `attachments/` directory is non-empty while no
`att/` directory (hence no `att/<filename>`) exists, the attachment phase of
`KattisLoader.get_task` fails with a file-not-found error on the first
listed filename instead of attaching the files; the files are attached only
when they also exist under `att/`. -/
theorem c10_attachments (n : String) (rest : List String) :
    Kattis.load_attachments (some (n :: rest)) [] = Except.error n ∧
    Kattis.load_attachments (some [n]) [n] = Except.ok [n] ∧
    Kattis.load_attachments none [] = Except.ok [] := by
  refine ⟨?_, ?_, rfl⟩
  · show (n :: rest).foldl _ (Except.ok ([] : List String)) = Except.error n
    rw [List.foldl_cons]
    exact Kattis.load_attachments_error_absorbs [] rest n
  · simp [Kattis.load_attachments, Except.bind]
